import Mathlib

/-!
Shallow embedding of the four Python scripts of this repository:

* `config/filters/filter_block_number.py` — EVM parity filter function.
* `tests/integration/fixtures/filters/test3.py` — the integration-test
  fixture variant of the same filter function.
* `config/filters/stellar_filter_block_number.py` — standalone argv-json
  Stellar filter script.
* `config/triggers/scripts/custom_notification.py` — standalone stdin-json
  trigger/notification script.

JSON documents (after Python's `json.loads`) are modelled by the inductive
type `Json` below; a parsed Python dict is an association list with unique
keys, `None` is `Json.null` (exactly the value `json.loads` yields for JSON
`null`, and the value `dict.get` returns for a missing key).  Python
exceptions are modelled by `Option`: `none` is an exception propagating to
the enclosing handler.  Numbers are integers (`Int`); the scripts only ever
compare a number with `0` or take its parity, on which Lean's `Int.emod`
agrees with Python's `%` for the divisor `2`.
-/

/-- A parsed JSON document / Python value as produced by `json.loads`. -/
inductive Json where
  | null
  | bool (b : Bool)
  | num (n : Int)
  | str (s : String)
  | arr (xs : List Json)
  | obj (kvs : List (String × Json))

/-- Python truthiness (`if x:`) of a parsed JSON value. -/
def Json.truthy : Json → Bool
  | .null => false
  | .bool b => b
  | .num n => decide (n ≠ 0)
  | .str s => !s.toList.isEmpty
  | .arr xs => !xs.isEmpty
  | .obj kvs => !kvs.isEmpty

/-- First-match lookup in an association list (a parsed dict has unique
keys, so first match is the dict lookup). -/
def assocGet : List (String × Json) → String → Option Json
  | [], _ => none
  | p :: rest, k => if p.1 = k then some p.2 else assocGet rest k

/-- Python subscript `data[k]` with a string key: `KeyError` on a missing
key and `TypeError` on a non-dict are both exceptions (`none`). -/
def pySubscript : Json → String → Option Json
  | .obj kvs, k => assocGet kvs k
  | _, _ => none

/-- Python `data.get(k)`: on a dict it returns the value or `None`
(`Json.null`); on anything else `.get` raises `AttributeError` (`none`). -/
def pyDictGet : Json → String → Option Json
  | .obj kvs, k => some ((assocGet kvs k).getD .null)
  | _, _ => none

/-- Python `x % 2 == 0`: defined on ints and bools (a Python `bool` is an
`int`), a `TypeError` (`none`) on every other value. -/
def pyMod2IsZero : Json → Option Bool
  | .num n => some (decide (n % 2 = 0))
  | .bool b => some (decide ((if b then (1 : Int) else 0) % 2 = 0))
  | _ => none

namespace ConfigFilters

/-- `filter_block_number` from `config/filters/filter_block_number.py`:
`processed_block.get('block_number', 0) % 2 == 0`.  The function has no
exception handler, so a non-numeric field raises (`none`). -/
def filter_block_number (processed_block : List (String × Json)) : Option Bool :=
  pyMod2IsZero ((assocGet processed_block "block_number").getD (.num 0))

end ConfigFilters

namespace Test3Fixture

/-- `filter_block_number` from
`tests/integration/fixtures/filters/test3.py` (same body as the
production filter). -/
def filter_block_number (processed_block : List (String × Json)) : Option Bool :=
  pyMod2IsZero ((assocGet processed_block "block_number").getD (.num 0))

end Test3Fixture

/-!
Model of Python's `int(s, 16)` over ASCII strings: optional surrounding
whitespace, an optional sign, an optional `0x`/`0X` marker, then a
non-empty run of hex digits that may be separated by single underscores
(one underscore is also allowed directly after the `0x` marker).  Any
other string raises `ValueError` (`none`); a non-string argument with an
explicit base raises `TypeError` (handled at the call sites).
-/

/-- ASCII whitespace stripped by Python's int parsing. -/
def isPyWS (c : Char) : Bool :=
  c = ' ' || c = '\t' || c = '\n' || c = '\r' || c = '\x0b' || c = '\x0c'

/-- Value of one hex digit, `none` for a non-digit. -/
def hexDigVal (c : Char) : Option Nat :=
  if '0' ≤ c ∧ c ≤ '9' then some (c.toNat - 48)
  else if 'a' ≤ c ∧ c ≤ 'f' then some (c.toNat - 87)
  else if 'A' ≤ c ∧ c ≤ 'F' then some (c.toNat - 55)
  else none

/-- Whether a character is an ASCII hex digit. -/
def isHexDig (c : Char) : Bool := (hexDigVal c).isSome

/-- Consume a run of hex digits with single underscores allowed between
digits.  `acc` is the value so far, `lastU` whether the previous character
was an underscore, `seen` whether a digit has been consumed yet. -/
def hexRun : List Char → Nat → Bool → Bool → Option Nat
  | [], acc, lastU, seen =>
      if lastU = false ∧ seen = true then some acc else none
  | c :: cs, acc, lastU, seen =>
      if c = '_' then
        if lastU = false ∧ seen = true then hexRun cs acc true seen else none
      else
        match hexDigVal c with
        | some d => hexRun cs (16 * acc + d) false true
        | none => none

/-- Digit part after the optional `0x` marker: directly after the marker
(`afterP = true`) one leading underscore is tolerated. -/
def hexTail (afterP : Bool) (cs : List Char) : Option Nat :=
  match cs with
  | c :: rest =>
      if afterP ∧ c = '_' then hexRun rest 0 true false
      else hexRun (c :: rest) 0 false false
  | [] => none

/-- Hex literal after the optional sign: an optional `0x`/`0X` marker then
the digit part. -/
def hexAfterSign (cs : List Char) : Option Nat :=
  match cs with
  | c0 :: c1 :: rest =>
      if c0 = '0' ∧ (c1 = 'x' ∨ c1 = 'X') then hexTail true rest
      else hexRun (c0 :: c1 :: rest) 0 false false
  | cs => hexRun cs 0 false false

/-- Strip leading and trailing ASCII whitespace. -/
def trimWS (cs : List Char) : List Char :=
  ((cs.dropWhile isPyWS).reverse.dropWhile isPyWS).reverse

/-- Python's `int(s, 16)` on a string, `none` on `ValueError`. -/
def pyIntBase16 (s : String) : Option Int :=
  match trimWS s.toList with
  | [] => none
  | c :: rest =>
      if c = '-' then (hexAfterSign rest).map (fun n => -(n : Int))
      else if c = '+' then (hexAfterSign rest).map (fun n => (n : Int))
      else (hexAfterSign (c :: rest)).map (fun n => (n : Int))

/-- Python's `int(v, 16)` on a parsed JSON value: only strings convert,
any other value raises `TypeError` (`none`). -/
def intBase16Json : Json → Option Int
  | .str s => pyIntBase16 s
  | _ => none

/-- Reference base-16 value of a list of hex digits (most significant
first), used to state what the script's decoding computes. -/
def hexVal (cs : List Char) : Nat :=
  cs.foldl (fun a c => 16 * a + (hexDigVal c).getD 0) 0

example : pyIntBase16 "ff" = some 255 := rfl
example : pyIntBase16 "0x10" = some 16 := rfl
example : pyIntBase16 " -0X_a_b " = some (-171) := rfl
example : pyIntBase16 "" = none := rfl
example : pyIntBase16 "0x" = none := rfl
example : pyIntBase16 "f__f" = none := rfl
example : pyIntBase16 "f_" = none := rfl
example : pyIntBase16 "_f" = none := rfl
example : pyIntBase16 "0x_ff" = some 255 := rfl
example : hexVal ("1a".toList) = 26 := rfl

/-!
The two standalone scripts.  A script sees a command-line argument or the
stdin document only through `json.loads`, so an input channel is modelled
by the quotient the code observes: present-and-parsed, present-but-invalid,
or absent/empty.  Diagnostic lines are kept (their exact interpolated text
is summarized by a fixed message, since no property depends on it); the
returned list is the full stdout of one run, the `__main__` block's
`print(str(result).lower())` included.
-/

/-- One command-line argument after `json.loads`: `bad` is a string that
is not valid JSON, `val j` a string parsing to `j`. -/
inductive Arg where
  | bad
  | val (j : Json)

/-- The stdin document after `sys.stdin.read()` and `json.loads`:
`empty` is an empty read, `bad` a non-empty read that is not valid JSON,
`val j` one parsing to `j`. -/
inductive StdInp where
  | empty
  | bad
  | val (j : Json)

/-- Python's `str(result).lower()` for a bool. -/
def pyBoolStr (b : Bool) : String := if b then "true" else "false"

/-- Python's `"Stellar" in data`: key test on a dict, element test on a
list, substring test on a string, `TypeError` (`none`) on anything else. -/
def pyContainsStellar : Json → Option Bool
  | .obj kvs => some (kvs.any (fun kv => decide (kv.1 = "Stellar")))
  | .arr xs =>
      some (xs.any (fun j => match j with
        | .str s => decide (s = "Stellar")
        | _ => false))
  | .str s => some (decide (2 ≤ (s.splitOn "Stellar").length))
  | _ => none

/-- Ledger extraction of `stellar_filter_block_number.py` on parsed data:
outer `none` is an exception reaching the script's `except Exception`
handler, `some none` is `ledger_number is None`, `some (some n)` a decoded
ledger number.  Mirrors
`ledger = data['Stellar']['transaction'].get('ledger')` followed by
`if ledger: ledger_number = int(ledger, 16)`. -/
def stellarLedger (data : Json) : Option (Option Int) :=
  match pyContainsStellar data with
  | none => none
  | some false => some none
  | some true =>
      match pySubscript data "Stellar" with
      | none => none
      | some st =>
          match pySubscript st "transaction" with
          | none => none
          | some tr =>
              match pyDictGet tr "ledger" with
              | none => none
              | some ledger =>
                  if ledger.truthy then
                    match intBase16Json ledger with
                    | none => none
                    | some n => some (some n)
                  else some none

/-- `main()` of `stellar_filter_block_number.py`: stdout lines printed by
the body, paired with the returned bool.  The argument list models
`sys.argv[1:]`. -/
def stellarMain : List Arg → List String × Bool
  | [] => (["No input JSON provided"], false)
  | .bad :: _ => (["Invalid JSON input"], false)
  | .val data :: _ =>
      match stellarLedger data with
      | none => (["Error processing input"], false)
      | some none => (["Ledger number is None"], false)
      | some (some n) =>
          let even := decide (n % 2 = 0)
          (["Ledger number " ++ toString n ++ " is " ++
              (if even then "even" else "odd")], even)

/-- One full run of `stellar_filter_block_number.py`: `main()` then the
`__main__` block printing `str(result).lower()`.  The script never reads
stdin, so the `stdin` argument is unused by construction. -/
def stellarRun (argv : List Arg) (_stdin : StdInp) : List String :=
  (stellarMain argv).1 ++ [pyBoolStr (stellarMain argv).2]

/-- Whether a Stellar-script run fails to extract a decision (missing
argument, invalid JSON, missing fields, or an exception while decoding). -/
def stellarFailed : List Arg → Bool
  | [] => true
  | .bad :: _ => true
  | .val data :: _ =>
      match stellarLedger data with
      | some (some _) => false
      | _ => true

/-- `main()` of `custom_notification.py`: reads stdin, requires the keys
`monitor_match` and `args` (a `KeyError`/`TypeError` here is caught only
by the outer `except Exception`), optionally prints the args line, and
then returns `True` unconditionally. -/
def triggerMain : StdInp → List String × Bool
  | .empty => (["No input JSON provided"], false)
  | .bad => (["Invalid JSON input"], false)
  | .val data =>
      match pySubscript data "monitor_match" with
      | none => (["Error processing input"], false)
      | some _ =>
          match pySubscript data "args" with
          | none => (["Error processing input"], false)
          | some args =>
              ((if args.truthy then ["Args: ..."] else []), true)

/-- One full run of `custom_notification.py`: `main()` then the
`__main__` block printing `str(result).lower()`.  The script never reads
`sys.argv`, so the `argv` argument is unused by construction. -/
def triggerRun (_argv : List Arg) (stdin : StdInp) : List String :=
  (triggerMain stdin).1 ++ [pyBoolStr (triggerMain stdin).2]

/-- Whether a trigger-script run fails to extract a decision (empty or
invalid stdin, or a payload without the two required keys). -/
def triggerFailed : StdInp → Bool
  | .empty => true
  | .bad => true
  | .val data =>
      match pySubscript data "monitor_match" with
      | none => true
      | some _ =>
          match pySubscript data "args" with
          | none => true
          | some _ => false

example : stellarRun
    [.val (.obj [("Stellar", .obj [("transaction",
      .obj [("ledger", .str "0x10")])])])] .empty
    = ["Ledger number 16 is even", "true"] := rfl

example : stellarRun
    [.val (.obj [("Stellar", .obj [("ledger",
      .obj [("sequence", .num 4)])])])] .empty
    = ["Error processing input", "false"] := rfl

example : stellarRun [] .empty = ["No input JSON provided", "false"] := rfl

example : triggerRun [] (.val (.obj [("monitor_match",
      .obj [("transaction", .obj [("blockNumber", .str "0x7")])]),
      ("args", .obj [])]))
    = ["true"] := rfl

example : triggerRun [] .bad = ["Invalid JSON input", "false"] := rfl

/-! Helper lemmas. -/

theorem lastApp {α : Type} (xs : List α) (a : α) :
    (xs ++ [a]).getLast? = some a := by
  induction xs with
  | nil => rfl
  | cons x xs ih =>
    rw [List.cons_append, List.getLast?_cons, ih]
    rfl

theorem not_ws_of_hex {c : Char} (h : isHexDig c = true) : isPyWS c = false := by
  cases hw : isPyWS c
  · rfl
  · exfalso
    have hc : c = ' ' ∨ c = '\t' ∨ c = '\n' ∨ c = '\r' ∨ c = '\x0b' ∨ c = '\x0c' := by
      simpa [isPyWS, or_assoc] using hw
    rcases hc with h1 | h1 | h1 | h1 | h1 | h1 <;> subst h1 <;>
      exact absurd h (by decide)

theorem hex_ne {c : Char} (h : isHexDig c = true) :
    c ≠ '-' ∧ c ≠ '+' ∧ c ≠ '_' ∧ c ≠ 'x' ∧ c ≠ 'X' := by
  refine ⟨?_, ?_, ?_, ?_, ?_⟩ <;> intro he <;> subst he <;>
    exact absurd h (by decide)

theorem dropWhile_id_of_none {p : Char → Bool} (cs : List Char)
    (h : ∀ c ∈ cs, p c = false) : cs.dropWhile p = cs := by
  cases cs with
  | nil => rfl
  | cons c rest => simp [List.dropWhile_cons, h c (by simp)]

theorem trimWS_id (cs : List Char) (h : ∀ c ∈ cs, isPyWS c = false) :
    trimWS cs = cs := by
  unfold trimWS
  rw [dropWhile_id_of_none cs h,
    dropWhile_id_of_none cs.reverse (fun c hc => h c (List.mem_reverse.mp hc)),
    List.reverse_reverse]

theorem hexRun_digits (cs : List Char) (hhex : ∀ c ∈ cs, isHexDig c = true)
    (hne : cs ≠ []) :
    ∀ (acc : Nat) (lastU seen : Bool), hexRun cs acc lastU seen =
      some (cs.foldl (fun a c => 16 * a + (hexDigVal c).getD 0) acc) := by
  induction cs with
  | nil => exact absurd rfl hne
  | cons c rest ih =>
    intro acc lastU seen
    have hc := hhex c (by simp)
    obtain ⟨d, hd⟩ := Option.isSome_iff_exists.mp hc
    rw [hexRun, if_neg (hex_ne hc).2.2.1, hd]
    cases rest with
    | nil => simp [hexRun, List.foldl, hd]
    | cons c2 r2 =>
      show hexRun (c2 :: r2) (16 * acc + d) false true = _
      rw [ih (fun x hx => hhex x (by simp [hx])) (by simp)]
      simp [List.foldl, hd]

theorem pyIntBase16_digits (h : String) (hne : h.toList ≠ [])
    (hhex : ∀ c ∈ h.toList, isHexDig c = true) :
    pyIntBase16 h = some ((hexVal h.toList : Nat) : Int) := by
  have ht : trimWS h.toList = h.toList :=
    trimWS_id h.toList (fun c hc => not_ws_of_hex (hhex c hc))
  rcases he : h.toList with _ | ⟨c, rest⟩
  · exact absurd he hne
  · have hc := hhex c (by rw [he]; simp)
    rw [he] at ht
    simp only [pyIntBase16, he, ht]
    rw [if_neg (hex_ne hc).1, if_neg (hex_ne hc).2.1]
    have hrun : hexAfterSign (c :: rest) =
        hexRun (c :: rest) 0 false false := by
      cases rest with
      | nil => rfl
      | cons c2 r2 =>
        have hc2 := hhex c2 (by rw [he]; simp)
        rw [hexAfterSign, if_neg]
        rintro ⟨_, hx | hx⟩
        · exact (hex_ne hc2).2.2.2.1 hx
        · exact (hex_ne hc2).2.2.2.2 hx
    rw [hrun, hexRun_digits (c :: rest)
      (fun x hx => hhex x (by rw [he]; exact hx)) (by simp)]
    simp [hexVal, he]

theorem pyIntBase16_hex0x (h : String) (ds : List Char)
    (heq : h.toList = '0' :: 'x' :: ds) (hne : ds ≠ [])
    (hhex : ∀ c ∈ ds, isHexDig c = true) :
    pyIntBase16 h = some ((hexVal ds : Nat) : Int) := by
  have hws : ∀ c ∈ h.toList, isPyWS c = false := by
    rw [heq]
    intro c hc
    rcases hc with _ | ⟨_, hc⟩
    · decide
    · rcases hc with _ | ⟨_, hc⟩
      · decide
      · exact not_ws_of_hex (hhex c hc)
  have ht : trimWS h.toList = '0' :: 'x' :: ds := by
    rw [trimWS_id h.toList hws, heq]
  simp only [pyIntBase16, ht]
  rw [if_neg (by decide : ¬('0' : Char) = '-'),
    if_neg (by decide : ¬('0' : Char) = '+')]
  rw [hexAfterSign, if_pos ⟨rfl, Or.inl rfl⟩]
  rcases hd : ds with _ | ⟨c, rest⟩
  · exact absurd hd hne
  · have hc := hhex c (by rw [hd]; simp)
    rw [hexTail, if_neg (by rintro ⟨_, hu⟩; exact (hex_ne hc).2.2.1 hu)]
    rw [hexRun_digits (c :: rest) (fun x hx => hhex x (by rw [hd]; exact hx))
      (by simp)]
    simp [hexVal, hd]

theorem assoc_any_of_get {kvs : List (String × Json)} {k : String} {v : Json}
    (h : assocGet kvs k = some v) :
    kvs.any (fun kv => decide (kv.1 = k)) = true := by
  induction kvs with
  | nil => simp [assocGet] at h
  | cons p rest ih =>
    rw [assocGet] at h
    by_cases hp : p.1 = k
    · simp [List.any_cons, hp]
    · rw [if_neg hp] at h
      simp [List.any_cons, ih h]

theorem stellarLedger_shape (led : Json) :
    stellarLedger (.obj [("Stellar", .obj [("transaction",
        .obj [("ledger", led)])])])
      = if led.truthy then
          (match intBase16Json led with
            | none => none
            | some n => some (some n))
        else some none := rfl

theorem str_truthy_of_ne_nil {h : String} (hne : h.toList ≠ []) :
    (Json.str h).truthy = true := by
  rcases hl0 : h.toList with _ | ⟨c0, r0⟩
  · exact absurd hl0 hne
  · have hd : h.data = c0 :: r0 := hl0
    simp [Json.truthy, hd]

/-! The claims. -/

/-- C1: for every processed_block dict whose block_number field is an
integer n (a u64), filter_block_number returns True exactly when n is
even; the spec's two concrete payloads are the witness below. -/
theorem evm_filter_parity (pb : List (String × Json)) (n : Nat)
    (h : assocGet pb "block_number" = some (.num (n : Int))) :
    ConfigFilters.filter_block_number pb = some (decide (n % 2 = 0)) := by
  unfold ConfigFilters.filter_block_number
  rw [h]
  show pyMod2IsZero (.num (n : Int)) = _
  unfold pyMod2IsZero
  exact congrArg some (decide_eq_decide.mpr (by omega))

/-- Witness for C1: the payload with block_number 4 yields true and the
one with block_number 5 yields false. -/
theorem evm_filter_parity_witness :
    ConfigFilters.filter_block_number
      [("block_number", .num 4), ("network_slug", .str "x"),
       ("processing_results", .arr [])] = some true
    ∧ ConfigFilters.filter_block_number
      [("block_number", .num 5), ("network_slug", .str "x"),
       ("processing_results", .arr [])] = some false :=
  ⟨evm_filter_parity _ 4 rfl, evm_filter_parity _ 5 rfl⟩

/-- C2 counterexample: on the spec's ledger-based shape with the even
sequence 4, the Stellar script's final stdout line is false, not true. -/
theorem stellar_spec_shape_even_false_cex :
    (stellarRun [.val (.obj [("Stellar",
        .obj [("ledger", .obj [("sequence", .num 4)])])])] .empty).getLast?
      = some "false" ∧ (4 : Int) % 2 = 0 :=
  ⟨rfl, by decide⟩

/-- C2 (amended): for every payload of the spec's ledger-based shape
with a Stellar/ledger/sequence nesting, the script raises a KeyError
looking up the transaction key it actually reads, and the final stdout
line is always false, whatever the sequence value. -/
theorem stellar_spec_shape_always_false (s : Json) (rest : List Arg)
    (stdin : StdInp) :
    (stellarRun (.val (.obj [("Stellar",
        .obj [("ledger", .obj [("sequence", s)])])]) :: rest) stdin).getLast?
      = some "false" := rfl

/-- C3: run of the trigger script on a monitor match sitting in the odd
block 0x7 — the final stdout line is true, although the script's own
docstring promises false for odd blocks: main() never reads any block
number and returns True for every payload holding the two keys. -/
theorem trigger_true_on_odd_block :
    triggerRun [] (.val (.obj [("monitor_match",
        .obj [("transaction", .obj [("blockNumber", .str "0x7")])]),
        ("args", .obj [])])) = ["true"] := rfl

/-- C4: for every input on either channel, each script terminates with
its last stdout line exactly the lowercase literal true or false. -/
theorem scripts_terminal_boolean (argv : List Arg) (stdin : StdInp) :
    ((stellarRun argv stdin).getLast? = some "true"
      ∨ (stellarRun argv stdin).getLast? = some "false")
    ∧ ((triggerRun argv stdin).getLast? = some "true"
      ∨ (triggerRun argv stdin).getLast? = some "false") := by
  constructor
  · rw [stellarRun, lastApp]
    cases hb : (stellarMain argv).2
    · right; rfl
    · left; rfl
  · rw [triggerRun, lastApp]
    cases hb : (triggerMain stdin).2
    · right; rfl
    · left; rfl

/-- C5: on every input where a script cannot extract a decision it
prints a diagnostic line besides the terminal one, the failure never
escapes (the run still ends in its terminal line), and that final stdout
line is false. -/
theorem scripts_fail_closed (argv : List Arg) (stdin : StdInp) :
    (stellarFailed argv = true →
      2 ≤ (stellarRun argv stdin).length
        ∧ (stellarRun argv stdin).getLast? = some "false")
    ∧ (triggerFailed stdin = true →
      2 ≤ (triggerRun argv stdin).length
        ∧ (triggerRun argv stdin).getLast? = some "false") := by
  constructor
  · intro hf
    cases argv with
    | nil => exact ⟨by simp [stellarRun, stellarMain], rfl⟩
    | cons a rest =>
      cases a with
      | bad => exact ⟨by simp [stellarRun, stellarMain], rfl⟩
      | val d =>
        rcases hl : stellarLedger d with _ | (_ | n)
        · refine ⟨?_, ?_⟩ <;> simp [stellarRun, stellarMain, hl, pyBoolStr]
        · refine ⟨?_, ?_⟩ <;> simp [stellarRun, stellarMain, hl, pyBoolStr]
        · simp [stellarFailed, hl] at hf
  · intro hf
    cases stdin with
    | empty => exact ⟨by simp [triggerRun, triggerMain], rfl⟩
    | bad => exact ⟨by simp [triggerRun, triggerMain], rfl⟩
    | val d =>
      rcases hm : pySubscript d "monitor_match" with _ | mm
      · refine ⟨?_, ?_⟩ <;> simp [triggerRun, triggerMain, hm, pyBoolStr]
      · rcases ha : pySubscript d "args" with _ | a
        · refine ⟨?_, ?_⟩ <;> simp [triggerRun, triggerMain, hm, ha, pyBoolStr]
        · simp [triggerFailed, hm, ha] at hf

/-- Witness for C5: both scripts on an empty input channel. -/
theorem scripts_fail_closed_witness :
    (2 ≤ (stellarRun [] .empty).length
      ∧ (stellarRun [] .empty).getLast? = some "false")
    ∧ (2 ≤ (triggerRun [] .empty).length
      ∧ (triggerRun [] .empty).getLast? = some "false") :=
  ⟨(scripts_fail_closed [] .empty).1 rfl, (scripts_fail_closed [] .empty).2 rfl⟩

/-- C6: when the ledger value the script extracts is a hexadecimal
string, the script itself decodes it in base 16 to an integer and only
then checks parity, so the payload may carry the hex string unmodified. -/
theorem stellar_decodes_hex (h : String) (rest : List Arg) (stdin : StdInp)
    (hne : h.toList ≠ []) (hhex : ∀ c ∈ h.toList, isHexDig c = true) :
    stellarLedger (.obj [("Stellar", .obj [("transaction",
        .obj [("ledger", .str h)])])])
      = some (some ((hexVal h.toList : Nat) : Int))
    ∧ (stellarRun (.val (.obj [("Stellar", .obj [("transaction",
        .obj [("ledger", .str h)])])]) :: rest) stdin).getLast?
      = some (pyBoolStr (decide (hexVal h.toList % 2 = 0))) := by
  have htr := str_truthy_of_ne_nil hne
  have hpi := pyIntBase16_digits h hne hhex
  have hled : stellarLedger (.obj [("Stellar", .obj [("transaction",
      .obj [("ledger", .str h)])])])
      = some (some ((hexVal h.toList : Nat) : Int)) := by
    simp only [stellarLedger_shape, htr, if_true, intBase16Json, hpi]
  refine ⟨hled, ?_⟩
  have hmain : (stellarMain (.val (.obj [("Stellar", .obj [("transaction",
      .obj [("ledger", .str h)])])]) :: rest)).2
      = decide (((hexVal h.toList : Nat) : Int) % 2 = 0) := by
    simp only [stellarMain, hled]
  rw [stellarRun, lastApp, hmain]
  exact congrArg some (congrArg pyBoolStr (decide_eq_decide.mpr (by omega)))

/-- Witness for C6: the hex string ff decodes to 255, an odd number, so
the final line is false. -/
theorem stellar_decodes_hex_witness :
    stellarLedger (.obj [("Stellar", .obj [("transaction",
        .obj [("ledger", .str "ff")])])]) = some (some 255)
    ∧ (stellarRun [.val (.obj [("Stellar", .obj [("transaction",
        .obj [("ledger", .str "ff")])])])] .empty).getLast? = some "false" :=
  stellar_decodes_hex "ff" [] .empty (by decide) (by decide)

/-- C7: a processed_block dict lacking the block_number key gets the
default 0 and filter_block_number returns True, a match. -/
theorem evm_filter_default_zero (pb : List (String × Json))
    (h : assocGet pb "block_number" = none) :
    ConfigFilters.filter_block_number pb = some true := by
  unfold ConfigFilters.filter_block_number
  rw [h]
  rfl

/-- Witness for C7: a payload without a block_number key. -/
theorem evm_filter_default_zero_witness :
    ConfigFilters.filter_block_number [("network_slug", .str "x")]
      = some true :=
  evm_filter_default_zero _ rfl

/-- C8: for a first argument whose object carries a string of hex digits
(optionally 0x-prefixed) under the nested Stellar/transaction/ledger
path, the final stdout line is true exactly when the base-16 value is
even; the surrounding objects may carry any other keys, since the script
reads only this path. -/
theorem stellar_transaction_ledger_path
    (top st tr : List (String × Json)) (h : String) (ds : List Char)
    (rest : List Arg) (stdin : StdInp)
    (h1 : assocGet top "Stellar" = some (.obj st))
    (h2 : assocGet st "transaction" = some (.obj tr))
    (h3 : assocGet tr "ledger" = some (.str h))
    (hsplit : h.toList = ds ∨ h.toList = '0' :: 'x' :: ds)
    (hne : ds ≠ []) (hhex : ∀ c ∈ ds, isHexDig c = true) :
    (stellarRun (.val (.obj top) :: rest) stdin).getLast?
      = some (pyBoolStr (decide (hexVal ds % 2 = 0))) := by
  have hpi : pyIntBase16 h = some ((hexVal ds : Nat) : Int) := by
    rcases hsplit with hs | hs
    · have := pyIntBase16_digits h (by rw [hs]; exact hne)
        (by rw [hs]; exact hhex)
      rw [this, hs]
    · exact pyIntBase16_hex0x h ds hs hne hhex
  have htne : h.toList ≠ [] := by
    rcases hsplit with hs | hs <;> rw [hs]
    · exact hne
    · simp
  have htr := str_truthy_of_ne_nil htne
  have hany : top.any (fun kv => decide (kv.1 = "Stellar")) = true :=
    assoc_any_of_get h1
  have hled : stellarLedger (.obj top)
      = some (some ((hexVal ds : Nat) : Int)) := by
    simp only [stellarLedger, pyContainsStellar, hany, if_true, pySubscript,
      h1, h2, pyDictGet, h3, Option.getD_some, htr, intBase16Json, hpi]
  have hmain : (stellarMain (.val (.obj top) :: rest)).2
      = decide (((hexVal ds : Nat) : Int) % 2 = 0) := by
    simp only [stellarMain, hled]
  rw [stellarRun, lastApp, hmain]
  exact congrArg some (congrArg pyBoolStr (decide_eq_decide.mpr (by omega)))

/-- Witness for C8: the 0x-prefixed hex string 0x10 is 16, even, so the
final line is true. -/
theorem stellar_transaction_ledger_path_witness :
    (stellarRun [.val (.obj [("Stellar", .obj [("transaction",
        .obj [("ledger", .str "0x10")])])])] .empty).getLast?
      = some "true" :=
  stellar_transaction_ledger_path
    [("Stellar", .obj [("transaction", .obj [("ledger", .str "0x10")])])]
    [("transaction", .obj [("ledger", .str "0x10")])]
    [("ledger", .str "0x10")] "0x10" ['1', '0'] [] .empty
    rfl rfl rfl (Or.inr (by decide)) (by decide) (by decide)

/-- C9: each script's decision depends only on its designated channel:
the Stellar script's output is unchanged by stdin and by arguments after
the first, and the trigger script's output is unchanged by argv. -/
theorem channel_determinism :
    (∀ (a : Arg) (r1 r2 : List Arg) (s1 s2 : StdInp),
      stellarRun (a :: r1) s1 = stellarRun (a :: r2) s2)
    ∧ (∀ (s : StdInp) (a1 a2 : List Arg), triggerRun a1 s = triggerRun a2 s) := by
  constructor
  · intro a r1 r2 s1 s2
    cases a <;> rfl
  · intro s a1 a2
    rfl

/-- C10: the production filter and the integration-test fixture filter
agree on every input dictionary. -/
theorem filters_extensionally_equal :
    ∀ pb : List (String × Json),
      ConfigFilters.filter_block_number pb = Test3Fixture.filter_block_number pb :=
  fun _ => rfl
